import Mathlib

/-
Verification of the pyrkbun client library core (configuration resolution,
request execution / error classification, response normalization, DNS record
name normalization, and the DNS feature module) against its specification.

The Python sources are shallowly embedded:
  * Python/JSON values are modelled by the inductive type `JVal`
    (Python `None` is `JVal.null`).
  * Python dictionaries are association lists `Dict := List (String × JVal)`;
    real Python dictionaries never repeat a key, so the list operations
    below act on the first occurrence of a key (for unique-key lists this
    agrees with Python dict semantics).
  * Exceptions are modelled with `Except PyErr`.
  * The HTTP transport is abstracted as a function from the request path to
    an `HttpResponse`; the body of a response is carried both raw and as an
    optional decoded dictionary (decoding failure = `none`).
  * Functions that perform network calls also return the list of request
    paths they posted, so "no network I/O happened" is expressible.
-/

/-- Model of a Python/JSON value as handled by the client
(json bodies, config values, payload entries).  `null` stands for
Python `None`. -/
inductive JVal where
  | null
  | bool (b : Bool)
  | int (n : Int)
  | num (q : Rat)
  | str (s : String)
  | arr (xs : List JVal)
  | obj (fields : List (String × JVal))
deriving Repr

/-- A Python dictionary with string keys, as an association list. -/
def Dict : Type := List (String × JVal)

/-- Python truthiness (`bool(v)`) for the modelled values. -/
def jtruthy : JVal → Bool
  | .null => false
  | .bool b => b
  | .int n => n != 0
  | .num q => q != 0
  | .str s => !s.isEmpty
  | .arr xs => !xs.isEmpty
  | .obj d => !d.isEmpty

/-- Python falsiness (`not v`). -/
def jfalsy (v : JVal) : Bool := !jtruthy v

/-- Python `str(v)`.  The `num`, `arr` and `obj` branches are
approximations of CPython's repr; no claim below depends on them. -/
def jvalStr : JVal → String
  | .null => "None"
  | .bool b => cond b "True" "False"
  | .int n => toString n
  | .num q => toString q
  | .str s => s
  | .arr _ => "[...]"
  | .obj _ => "{...}"

/-- Python `v == s` where `s` is a string literal: true exactly when `v`
is that string (values of other types never equal a string in Python). -/
def jvalEqStr (v : JVal) (s : String) : Bool :=
  match v with
  | .str t => t == s
  | _ => false

/-- Dictionary lookup, `d[k]` / `d.get(k)` (first occurrence of the key). -/
def kvLookup : Dict → String → Option JVal
  | [], _ => none
  | (k0, v0) :: rest, k => if k0 == k then some v0 else kvLookup rest k

/-- Python `d.get(k)`: the stored value, or `None` when the key is absent. -/
def dictGet (d : Dict) (k : String) : JVal := (kvLookup d k).getD JVal.null

/-- Python `d[k] = v` (also a one-key `d.update(...)`): replace the value if
the key is present, append the pair otherwise. -/
def dictUpdate : Dict → String → JVal → Dict
  | [], k, v => [(k, v)]
  | (k0, v0) :: rest, k, v =>
      if k0 == k then (k, v) :: rest else (k0, v0) :: dictUpdate rest k v

/-- Python `d.pop(k, None)` restricted to its effect on the dictionary:
remove the entry for the key if present. -/
def dictPop : Dict → String → Dict
  | [], _ => []
  | (k0, v0) :: rest, k => if k0 == k then rest else (k0, v0) :: dictPop rest k

/-- Keys of a dictionary, in order. -/
def dictKeys (d : Dict) : List String := d.map Prod.fst

/-- Truthiness of an optional-string argument (Python `if arg:` for an
`Optional[str]` parameter: `None` and `''` are falsy). -/
def truthyOptStr : Option String → Bool
  | none => false
  | some s => !s.isEmpty

/-- Python f-string interpolation of an `Optional[str]` value:
`None` renders as the literal string `"None"`. -/
def pyStrOpt : Option String → String
  | none => "None"
  | some s => s

/-- Python `name or ''` for an `Optional[str]` value. -/
def pyOrEmptyStr : Option String → String
  | none => ""
  | some s => if s.isEmpty then "" else s

/-- Conversion of an `Optional[str]` argument to the stored Python value
(absent becomes `None`). -/
def jOfOptStr : Option String → JVal
  | none => JVal.null
  | some s => JVal.str s

/-- Configuration keys of the client, from `PyrkbunClient._get_default_config`
(client.py). -/
inductive ConfigKey where
  | api_key
  | api_secret_key
  | force_v4
  | rate_limit
  | retries
  | timeout
  | http2
deriving DecidableEq, Repr

/-- Built-in defaults from `PyrkbunClient._get_default_config` (client.py):
every key is present, the credentials default to `None`. -/
def defaultConfig : ConfigKey → JVal
  | .api_key => .null
  | .api_secret_key => .null
  | .force_v4 => .bool false
  | .rate_limit => .num 0
  | .retries => .int 0
  | .timeout => .int 15
  | .http2 => .bool false

/-- One `config.update(source)` step of `PyrkbunClient.build`: a key the
source defines overwrites the accumulator, a key it does not define leaves
the accumulator unchanged. -/
def applySource (base : ConfigKey → JVal) (src : ConfigKey → Option JVal) :
    ConfigKey → JVal :=
  fun k => (src k).getD (base k)

/-- The configuration merge of `PyrkbunClient.build` (client.py lines
137-146): defaults, then (when `read_env`) the file named by
`PYRK_CONFIG_FILE` and the individual environment variables, then (when
`file_name` is truthy) the explicitly named file, then explicit arguments.
Each source is abstracted as the partial map of keys it defines (the
loading mechanics are external collaborators per the spec). -/
def mergedConfig (envFile envVars file args : ConfigKey → Option JVal)
    (read_env : Bool) (file_name : Option String) : ConfigKey → JVal :=
  let c0 := defaultConfig
  let c1 := if read_env then applySource (applySource c0 envFile) envVars else c0
  let c2 := if truthyOptStr file_name then applySource c1 file else c1
  applySource c2 args

/-- The state of a `PyrkbunClient` instance after `__init__` (client.py).
Python does not enforce the annotated types, so the configuration fields
hold arbitrary values. -/
structure PyrkbunClient where
  api_key : JVal
  api_secret_key : JVal
  force_v4 : JVal
  rate_limit : JVal
  retries : JVal
  timeout : JVal
  http2 : JVal
  base_url_v64 : String
  base_url_v4 : String
  base_url : String

/-- `PyrkbunClient.__init__` (client.py lines 68-101): stores the passed
configuration and selects the base URL; it performs no validation and
cannot fail. -/
def clientInit (api_key api_secret_key force_v4 rate_limit retries timeout http2 : JVal) :
    PyrkbunClient :=
  { api_key := api_key
    api_secret_key := api_secret_key
    force_v4 := force_v4
    rate_limit := rate_limit
    retries := retries
    timeout := timeout
    http2 := http2
    base_url_v64 := "https://api.porkbun.com/api/json/v3"
    base_url_v4 := "https://api-ipv4.porkbun.com/api/json/v3"
    base_url := if jtruthy force_v4
      then "https://api-ipv4.porkbun.com/api/json/v3"
      else "https://api.porkbun.com/api/json/v3" }

/-- `PyrkbunClient.build` (client.py lines 103-160): merge the
configuration sources, fail with `ValueError` when the merged `api_key` or
`api_secret_key` is falsy (`None` or empty), otherwise construct the
client via `__init__`. -/
def buildE (envFile envVars file args : ConfigKey → Option JVal)
    (read_env : Bool) (file_name : Option String) : Except String PyrkbunClient :=
  let config := mergedConfig envFile envVars file args read_env file_name
  if jfalsy (config .api_key) || jfalsy (config .api_secret_key) then
    .error "api_key and api_secret_key are required"
  else
    .ok (clientInit (config .api_key) (config .api_secret_key) (config .force_v4)
      (config .rate_limit) (config .retries) (config .timeout) (config .http2))

/-- Witness source (C1): the config file named by `PYRK_CONFIG_FILE`
defines no keys. -/
def wEnvFileSrc : ConfigKey → Option JVal := fun _ => none

/-- Witness source (C1): the individual environment variables set the
credentials and `timeout = 20`. -/
def wEnvVarSrc : ConfigKey → Option JVal := fun k =>
  match k with
  | .api_key => some (.str "envkey")
  | .api_secret_key => some (.str "envsecret")
  | .timeout => some (.int 20)
  | _ => none

/-- Witness source (C1): the explicitly named config file defines no keys. -/
def wFileSrc : ConfigKey → Option JVal := fun _ => none

/-- Witness source (C1): the explicit arguments set `timeout = 25`. -/
def wArgSrc : ConfigKey → Option JVal := fun k =>
  match k with
  | .timeout => some (.int 25)
  | _ => none

/-- HTTP status codes indicating a successful API call (const.py
`VALID_HTTP_RESPONSE = {200}`). -/
def VALID_HTTP_RESPONSE : List Int := [200]

/-- The exceptions the client code can raise.  `valueError`, `typeError`,
`keyError` and `runtimeError` model the Python built-ins; `apiError` and
`apiFailure` model the library's exception classes (client.py). -/
inductive PyErr where
  | valueError (msg : String)
  | apiError (http_status : Int) (status message : JVal)
  | apiFailure (http_status : Int) (content : String)
  | typeError
  | keyError
  | runtimeError (msg : String)

/-- An HTTP response as observed by `api_post`: the status code, the raw
body (`response.content`), and the result of `response.json()` —
`none` when JSON decoding raises. -/
structure HttpResponse where
  status_code : Int
  content : String
  jsonResult : Option Dict

/-- The `ApiError(**result)` call of `api_post` (client.py line 325):
keyword expansion of the result dictionary against
`ApiError.__init__(self, http_status, status, message)`.  It succeeds
exactly when the dictionary's keys are among — and cover — those three
parameter names; any extra or missing key raises `TypeError` (`none`). -/
def mkApiError (d : Dict) : Option (Int × JVal × JVal) :=
  match kvLookup d "http_status", kvLookup d "status", kvLookup d "message" with
  | some (JVal.int hs), some st, some msg =>
      if (dictKeys d).all (fun k => k == "http_status" || k == "status" || k == "message")
      then some (hs, st, msg)
      else none
  | _, _, _ => none

/-- `PyrkbunClient.api_post` (client.py lines 264-325), with the transport
abstracted: the response the wire would produce is passed as `resp`.
Returns the outcome together with the final state of the caller-supplied
payload dictionary (Python mutates it in place).  When authentication is
requested the credentials are injected; after a successful JSON decode
they are popped back out; when the status code is not accepted the
decoded body is turned into an `ApiError` via keyword expansion. -/
def apiPost (c : PyrkbunClient) (payloadIn : Option Dict) (auth : Bool)
    (resp : HttpResponse) : Except PyErr Dict × Dict :=
  let payload0 := payloadIn.getD []
  let payload1 := if auth
    then dictUpdate (dictUpdate payload0 "secretapikey" c.api_secret_key) "apikey" c.api_key
    else payload0
  match resp.jsonResult with
  | none => (.error (.apiFailure resp.status_code resp.content), payload1)
  | some result =>
      let payload2 := dictPop (dictPop payload1 "apikey") "secretapikey"
      if VALID_HTTP_RESPONSE.contains resp.status_code then (.ok result, payload2)
      else
        match mkApiError (dictUpdate result "http_status" (.int resp.status_code)) with
        | some (hs, st, msg) => (.error (.apiError hs st msg), payload2)
        | none => (.error .typeError, payload2)

/-- Witness client used to instantiate the request-executor claims. -/
def cW : PyrkbunClient :=
  clientInit (.str "KEY") (.str "SECRET") (.bool false) (.num 0) (.int 0) (.int 15)
    (.bool false)

/-- Witness response: HTTP 500 whose body decodes to the upstream error
contract `{"status": "ERROR", "message": "Invalid record ID."}`. -/
def respErr500 : HttpResponse :=
  ⟨500, "raw-body", some [("status", .str "ERROR"), ("message", .str "Invalid record ID.")]⟩

/-- Witness response: HTTP 200 whose body is not JSON. -/
def respNonJson : HttpResponse := ⟨200, "<html>502 Bad Gateway</html>", none⟩

/-- Witness response: HTTP 200 with a decodable success body. -/
def respOk200 : HttpResponse := ⟨200, "body", some [("status", .str "SUCCESS")]⟩

/-- Counterexample response: HTTP 500 whose JSON body lacks the
`message` field. -/
def respErrNoMsg : HttpResponse := ⟨500, "raw-body", some [("status", .str "ERROR")]⟩

/-- Python `s.endswith(t)` on strings modelled as character lists. -/
def pyEndsWith (s t : List Char) : Bool := decide (t <:+ s)

/-- `Dns._normalize_name` (dns.py lines 42-68), on strings modelled as
character lists: return `''` for an empty name; strip one trailing `'.'`;
strip a trailing `'.' + domain` suffix; map a name equal to the domain to
`''`; otherwise return the (dot-stripped) name unchanged. -/
def normalizeName (name domain : List Char) : List Char :=
  if name.isEmpty then []
  else
    let name1 := if pyEndsWith name ['.'] then name.dropLast else name
    if pyEndsWith name1 ('.' :: domain) then
      name1.take (name1.length - ('.' :: domain).length)
    else if name1 == domain then []
    else name1

/-- Modelled from the spec (section 4.4), for the refinement claim C6: the
record-name normalization rules in the spec's order — strip one trailing
dot; if the remaining name equals the zone or is empty, return the empty
string; if it ends with `'.' + zone`, strip that suffix; otherwise return
it unchanged. -/
def normalizeNameSpec (name zone : List Char) : List Char :=
  let stripped := if pyEndsWith name ['.'] then name.dropLast else name
  if stripped == zone || stripped.isEmpty then []
  else if pyEndsWith stripped ('.' :: zone) then
    stripped.take (stripped.length - (zone.length + 1))
  else stripped

/-- Supported DNS record types (const.py `SUPPORTED_DNS_RECORD_TYPES`). -/
def SUPPORTED_DNS_RECORD_TYPES : List String :=
  ["A", "AAAA", "MX", "CNAME", "ALIAS", "TXT", "NS", "SRV", "TLSA", "CAA"]

/-- The `DnsRecord` dataclass (dns.py lines 9-18).  Python stores whatever
values the code supplies, so the non-string fields are `JVal`
(`JVal.null` models a field holding `None`). -/
structure DnsRecord where
  id : String
  name : String
  type : JVal
  content : JVal
  ttl : JVal
  prio : JVal
  notes : JVal

/-- The `DnsResponse` dataclass (dns.py lines 21-24). -/
structure DnsResponse where
  records : List DnsRecord

/-- The error message of the dns.py status checks:
`API request failed with status '<status>'`, extended with the response
message when that is truthy. -/
def statusFailMsg (result : Dict) : String :=
  let status := (kvLookup result "status").getD (JVal.str "UNKNOWN")
  let message := (kvLookup result "message").getD (JVal.str "")
  let base := "API request failed with status \x27" ++ jvalStr status ++ "\x27"
  if jtruthy message then base ++ ": " ++ jvalStr message else base

/-- First half of the per-record conversion loop body of
`Dns.get_records` (dns.py lines 120-121): insert `notes = ''` when that
key is absent. -/
def notesFix (d0 : Dict) : Dict :=
  if (kvLookup d0 "notes").isNone then dictUpdate d0 "notes" (JVal.str "") else d0

/-- Second half of the loop body (dns.py lines 123-131): build a
`DnsRecord` with a stringified id, the name normalized against the
domain, indexing for id/name/type/content and `dict.get` for
ttl/prio/notes.  `none` models the Python error when a required key is
missing or the name value is not a string. -/
def convertRecord (domain : String) (d0 : Dict) : Option DnsRecord :=
  let d := notesFix d0
  match kvLookup d "id", kvLookup d "name", kvLookup d "type", kvLookup d "content" with
  | some idv, some (JVal.str nm), some ty, some ct =>
      some { id := jvalStr idv
             name := String.mk (normalizeName nm.toList domain.toList)
             type := ty
             content := ct
             ttl := dictGet d "ttl"
             prio := dictGet d "prio"
             notes := dictGet d "notes" }
  | _, _, _, _ => none

/-- The `for record_data in response['records']` loop of `Dns.get_records`:
every element must be a dictionary convertible by `convertRecord`. -/
def convertElems (domain : String) : List JVal → Option (List DnsRecord)
  | [] => some []
  | JVal.obj d :: rest =>
      match convertRecord domain d, convertElems domain rest with
      | some r, some rs => some (r :: rs)
      | _, _ => none
  | _ :: _ => none

/-- The path selection of `Dns.get_records` (dns.py lines 95-103):
`record_id` first, then `name` (interpolating the record type argument
even when it is `None`), then `record_type`, then the whole zone. -/
def getRecordsPath (domain : String) (record_type name record_id : Option String) :
    String :=
  if truthyOptStr record_id then
    "/dns/retrieve/" ++ domain ++ "/" ++ pyStrOpt record_id
  else if truthyOptStr name then
    "/dns/retrieveByNameType/" ++ domain ++ "/" ++ pyStrOpt record_type ++ "/" ++ pyStrOpt name
  else if truthyOptStr record_type then
    "/dns/retrieveByNameType/" ++ domain ++ "/" ++ pyStrOpt record_type
  else
    "/dns/retrieve/" ++ domain

/-- `Dns.get_records` (dns.py lines 70-133): validate the record type,
select the path, post, check the status, and convert every element of
`response['records']`.  The second component lists the posted paths. -/
def getRecords (c : PyrkbunClient) (net : String → HttpResponse) (domain : String)
    (record_type name record_id : Option String) :
    Except PyErr DnsResponse × List String :=
  if truthyOptStr record_type
      && !(SUPPORTED_DNS_RECORD_TYPES.contains (pyStrOpt record_type)) then
    (.error (.valueError ("Unsupported DNS record type: " ++ pyStrOpt record_type)), [])
  else
    let path := getRecordsPath domain record_type name record_id
    match (apiPost c none true (net path)).1 with
    | .error e => (.error e, [path])
    | .ok result =>
        if !(jvalEqStr (dictGet result "status") "SUCCESS") then
          (.error (.runtimeError (statusFailMsg result)), [path])
        else
          match kvLookup result "records" with
          | some (JVal.arr rs) =>
              match convertElems domain rs with
              | some recs => (.ok ⟨recs⟩, [path])
              | none => (.error .typeError, [path])
          | some _ => (.error .typeError, [path])
          | none => (.error .keyError, [path])

/-- The payload construction of `Dns.create_record` (dns.py lines
164-177): `type` and `content` always, then each optional field that is
not `None`, in source order. -/
def createPayload (record_type content : String) (name ttl prio notes : Option String) :
    Dict :=
  let p : Dict := [("type", JVal.str record_type), ("content", JVal.str content)]
  let p := match name with | some v => dictUpdate p "name" (JVal.str v) | none => p
  let p := match ttl with | some v => dictUpdate p "ttl" (JVal.str v) | none => p
  let p := match prio with | some v => dictUpdate p "prio" (JVal.str v) | none => p
  match notes with | some v => dictUpdate p "notes" (JVal.str v) | none => p

/-- `Dns.create_record` (dns.py lines 135-200): validate the type, post
the payload, check the status, and echo the caller's inputs back in the
returned record (`name or ''`, optional fields kept as passed, id taken
from the response and stringified). -/
def createRecord (c : PyrkbunClient) (net : String → HttpResponse) (domain : String)
    (record_type content : String) (name ttl prio notes : Option String) :
    Except PyErr DnsRecord × List String :=
  if !(SUPPORTED_DNS_RECORD_TYPES.contains record_type) then
    (.error (.valueError ("Unsupported DNS record type: " ++ record_type)), [])
  else
    let payload := createPayload record_type content name ttl prio notes
    let path := "/dns/create/" ++ domain
    match (apiPost c (some payload) true (net path)).1 with
    | .error e => (.error e, [path])
    | .ok result =>
        if !(jvalEqStr (dictGet result "status") "SUCCESS") then
          (.error (.runtimeError (statusFailMsg result)), [path])
        else
          match kvLookup result "id" with
          | some idv =>
              (.ok { id := jvalStr idv
                     name := pyOrEmptyStr name
                     type := JVal.str record_type
                     content := JVal.str content
                     ttl := jOfOptStr ttl
                     prio := jOfOptStr prio
                     notes := jOfOptStr notes }, [path])
          | none => (.error .keyError, [path])

/-- `Dns.delete_record` (dns.py lines 202-241): validate the type and the
addressing mode before any network call, then post and check the status. -/
def deleteRecord (c : PyrkbunClient) (net : String → HttpResponse) (domain : String)
    (record_type name record_id : Option String) : Except PyErr Unit × List String :=
  if truthyOptStr record_type
      && !(SUPPORTED_DNS_RECORD_TYPES.contains (pyStrOpt record_type)) then
    (.error (.valueError ("Unsupported DNS record type: " ++ pyStrOpt record_type)), [])
  else if !truthyOptStr record_id && (!truthyOptStr record_type || !truthyOptStr name) then
    (.error (.valueError "Must provide either record_id OR both record_type and name"), [])
  else
    let path := if truthyOptStr record_id then
        "/dns/delete/" ++ domain ++ "/" ++ pyStrOpt record_id
      else
        "/dns/deleteByNameType/" ++ domain ++ "/" ++ pyStrOpt record_type ++ "/"
          ++ pyStrOpt name
    match (apiPost c none true (net path)).1 with
    | .error e => (.error e, [path])
    | .ok result =>
        if !(jvalEqStr (dictGet result "status") "SUCCESS") then
          (.error (.runtimeError (statusFailMsg result)), [path])
        else (.ok (), [path])

/-- The payload construction of `Dns.edit_record` (dns.py lines 280-292):
each field that is not `None`, in source order. -/
def editPayload (record_type name content ttl prio notes : Option String) : Dict :=
  let p : Dict := []
  let p := match name with | some v => dictUpdate p "name" (JVal.str v) | none => p
  let p := match record_type with | some v => dictUpdate p "type" (JVal.str v) | none => p
  let p := match content with | some v => dictUpdate p "content" (JVal.str v) | none => p
  let p := match ttl with | some v => dictUpdate p "ttl" (JVal.str v) | none => p
  let p := match prio with | some v => dictUpdate p "prio" (JVal.str v) | none => p
  match notes with | some v => dictUpdate p "notes" (JVal.str v) | none => p

/-- `Dns.edit_record` (dns.py lines 243-322): validate type, addressing
mode and non-empty payload before any network call; post; check status;
then re-fetch the record through `get_records` and return its first
element. -/
def editRecord (c : PyrkbunClient) (net : String → HttpResponse) (domain : String)
    (record_id record_type name content ttl prio notes : Option String) :
    Except PyErr DnsRecord × List String :=
  if truthyOptStr record_type
      && !(SUPPORTED_DNS_RECORD_TYPES.contains (pyStrOpt record_type)) then
    (.error (.valueError ("Unsupported DNS record type: " ++ pyStrOpt record_type)), [])
  else if !truthyOptStr record_id && (!truthyOptStr record_type || !truthyOptStr name) then
    (.error (.valueError "Must provide either record_id OR both record_type and name"), [])
  else
    let payload := editPayload record_type name content ttl prio notes
    if payload.isEmpty then
      (.error (.valueError "Must provide at least one field to update"), [])
    else
      let path := if truthyOptStr record_id then
          "/dns/edit/" ++ domain ++ "/" ++ pyStrOpt record_id
        else
          "/dns/editByNameType/" ++ domain ++ "/" ++ pyStrOpt record_type ++ "/"
            ++ pyStrOpt name
      match (apiPost c (some payload) true (net path)).1 with
      | .error e => (.error e, [path])
      | .ok result =>
          if !(jvalEqStr (dictGet result "status") "SUCCESS") then
            (.error (.runtimeError (statusFailMsg result)), [path])
          else
            let sub := if truthyOptStr record_id then
                getRecords c net domain none none record_id
              else
                getRecords c net domain record_type name none
            match sub.1 with
            | .error e => (.error e, path :: sub.2)
            | .ok resp =>
                match resp.records with
                | r :: _ => (.ok r, path :: sub.2)
                | [] => (.error (.runtimeError "Failed to retrieve updated record"),
                    path :: sub.2)

/-- Witness transport for C5: every path returns HTTP 200 with a SUCCESS
body holding one raw record `{"id": 42, "name": "www", "type": "A",
"content": "1.2.3.4", "prio": null}` — the `notes` key absent and the
`prio` value null. -/
def netRecords : String → HttpResponse := fun _ =>
  ⟨200, "body", some [("status", .str "SUCCESS"),
    ("records", .arr [.obj [("id", .int 42), ("name", .str "www"), ("type", .str "A"),
      ("content", .str "1.2.3.4"), ("prio", .null)]])]⟩

/-- Witness transport for C9/C10: every path returns HTTP 200 with a
SUCCESS body carrying a server-assigned numeric id. -/
def netCreate : String → HttpResponse := fun _ =>
  ⟨200, "body", some [("status", .str "SUCCESS"), ("id", .int 106926659)]⟩

/-- The raw record of the C5 counterexample and witness. -/
def raw42 : Dict :=
  [("id", .int 42), ("name", .str "www"), ("type", .str "A"),
   ("content", .str "1.2.3.4"), ("prio", .null)]

/-- The record `Dns.get_records` actually produces from `raw42`:
the id stringified and `notes` filled in, but `prio` still null. -/
def rec42 : DnsRecord :=
  { id := "42", name := "www", type := .str "A", content := .str "1.2.3.4",
    ttl := .null, prio := .null, notes := .str "" }

-- ===== Theorems =====

/-- Helper: a suffix longer than the list is never a suffix. -/
theorem pyEndsWith_false_of_lt (s t : List Char) (h : s.length < t.length) :
    pyEndsWith s t = false := by
  unfold pyEndsWith
  simp only [decide_eq_false_iff_not]
  intro hsfx
  exact absurd hsfx.length_le (by omega)

/-- Helper: looking up the key just set by `dictUpdate` yields the new value. -/
theorem kvLookup_dictUpdate_self (d : Dict) (k : String) (v : JVal) :
    kvLookup (dictUpdate d k v) k = some v := by
  induction d with
  | nil => simp [dictUpdate, kvLookup]
  | cons p rest ih =>
      obtain ⟨k0, v0⟩ := p
      by_cases h : (k0 == k) = true
      · simp [dictUpdate, h, kvLookup]
      · simp only [Bool.not_eq_true] at h
        simp [dictUpdate, h, kvLookup, ih]

/-- Helper: `dictUpdate` does not disturb lookups of other keys. -/
theorem kvLookup_dictUpdate_ne (d : Dict) (k k2 : String) (v : JVal)
    (h : (k2 == k) = false) :
    kvLookup (dictUpdate d k v) k2 = kvLookup d k2 := by
  have hrev : (k == k2) = false := by
    simp only [beq_eq_false_iff_ne, ne_eq] at h ⊢
    exact fun hx => h hx.symm
  induction d with
  | nil => simp [dictUpdate, kvLookup, hrev]
  | cons p rest ih =>
      obtain ⟨k0, v0⟩ := p
      by_cases h0 : (k0 == k) = true
      · have hk : k0 = k := by simpa using h0
        subst hk
        simp [dictUpdate, kvLookup, hrev]
      · simp only [Bool.not_eq_true] at h0
        simp [dictUpdate, h0, kvLookup, ih]

/-- Helper: a predicate true of every key and of the updated key stays
true of every key after `dictUpdate`. -/
theorem dictKeys_dictUpdate_all (P : String → Bool) (d : Dict) (k : String) (v : JVal)
    (hd : (dictKeys d).all P = true) (hk : P k = true) :
    (dictKeys (dictUpdate d k v)).all P = true := by
  induction d with
  | nil => simp [dictUpdate, dictKeys, hk]
  | cons p rest ih =>
      obtain ⟨k0, v0⟩ := p
      simp only [dictKeys, List.map_cons, List.all_cons, Bool.and_eq_true] at hd
      by_cases h0 : (k0 == k) = true
      · simp [dictUpdate, h0, dictKeys, hk, hd.2]
      · simp only [Bool.not_eq_true] at h0
        simp only [dictUpdate, h0, Bool.false_eq_true, if_false]
        simp only [dictKeys, List.map_cons, List.all_cons, Bool.and_eq_true]
        exact ⟨hd.1, ih hd.2⟩

/-- Helper: a key absent from a dictionary looks up to `none`. -/
theorem kvLookup_eq_none_of_not_mem (d : Dict) (k : String) (h : k ∉ dictKeys d) :
    kvLookup d k = none := by
  induction d with
  | nil => rfl
  | cons p rest ih =>
      obtain ⟨k0, v0⟩ := p
      simp only [dictKeys, List.map_cons, List.mem_cons, not_or] at h
      have : (k0 == k) = false := by
        simp only [beq_eq_false_iff_ne, ne_eq]
        exact fun hx => h.1 hx.symm
      simp only [kvLookup, this, Bool.false_eq_true, if_false]
      exact ih (by simpa [dictKeys] using h.2)

/-- Helper: the keys after `dictPop` are a sublist of the original keys. -/
theorem dictKeys_dictPop_sublist (d : Dict) (k : String) :
    (dictKeys (dictPop d k)).Sublist (dictKeys d) := by
  induction d with
  | nil => simp [dictPop]
  | cons p rest ih =>
      obtain ⟨k0, v0⟩ := p
      by_cases h0 : (k0 == k) = true
      · simp only [dictPop, h0, if_true]
        exact (List.sublist_cons_self _ _)
      · simp only [Bool.not_eq_true] at h0
        simp only [dictPop, h0, Bool.false_eq_true, if_false]
        exact List.Sublist.cons₂ _ ih

/-- Helper: `dictPop` preserves key uniqueness. -/
theorem nodup_dictKeys_dictPop (d : Dict) (k : String) (h : (dictKeys d).Nodup) :
    (dictKeys (dictPop d k)).Nodup :=
  (dictKeys_dictPop_sublist d k).nodup h

/-- Helper: membership among the keys after `dictUpdate`. -/
theorem mem_dictKeys_dictUpdate (d : Dict) (k x : String) (v : JVal)
    (h : x ∈ dictKeys (dictUpdate d k v)) : x ∈ dictKeys d ∨ x = k := by
  induction d with
  | nil => simp_all [dictUpdate, dictKeys]
  | cons p rest ih =>
      obtain ⟨k0, v0⟩ := p
      by_cases h0 : (k0 == k) = true
      · have hk : k0 = k := by simpa using h0
        subst hk
        simp only [dictUpdate, beq_self_eq_true, if_true] at h
        simp only [dictKeys, List.map_cons, List.mem_cons] at h ⊢
        tauto
      · simp only [Bool.not_eq_true] at h0
        simp only [dictUpdate, h0, Bool.false_eq_true, if_false] at h
        simp only [dictKeys, List.map_cons, List.mem_cons] at h ⊢
        rcases h with h | h
        · tauto
        · rcases ih h with h2 | h2 <;> tauto

/-- Helper: `dictUpdate` preserves key uniqueness. -/
theorem nodup_dictKeys_dictUpdate (d : Dict) (k : String) (v : JVal)
    (h : (dictKeys d).Nodup) : (dictKeys (dictUpdate d k v)).Nodup := by
  induction d with
  | nil => simp [dictUpdate, dictKeys]
  | cons p rest ih =>
      obtain ⟨k0, v0⟩ := p
      simp only [dictKeys, List.map_cons, List.nodup_cons] at h
      by_cases h0 : (k0 == k) = true
      · have hk : k0 = k := by simpa using h0
        subst hk
        simp only [dictUpdate, beq_self_eq_true, if_true]
        simp [dictKeys, h.1, h.2]
      · simp only [Bool.not_eq_true] at h0
        simp only [dictUpdate, h0, Bool.false_eq_true, if_false]
        simp only [dictKeys, List.map_cons, List.nodup_cons]
        refine ⟨fun hmem => ?_, ih h.2⟩
        rcases mem_dictKeys_dictUpdate rest k k0 v hmem with h2 | h2
        · exact h.1 h2
        · rw [h2] at h0
          simp at h0

/-- Helper: popping a key removes it, provided keys are unique. -/
theorem kvLookup_dictPop_self (d : Dict) (k : String) (h : (dictKeys d).Nodup) :
    kvLookup (dictPop d k) k = none := by
  induction d with
  | nil => rfl
  | cons p rest ih =>
      obtain ⟨k0, v0⟩ := p
      simp only [dictKeys, List.map_cons, List.nodup_cons] at h
      by_cases h0 : (k0 == k) = true
      · have hk : k0 = k := by simpa using h0
        subst hk
        simp only [dictPop, beq_self_eq_true, if_true]
        exact kvLookup_eq_none_of_not_mem rest k0 h.1
      · simp only [Bool.not_eq_true] at h0
        simp only [dictPop, h0, Bool.false_eq_true, if_false, kvLookup, ih h.2]

/-- Helper: popping one key does not disturb lookups of another. -/
theorem kvLookup_dictPop_ne (d : Dict) (k k2 : String) (h : (k2 == k) = false) :
    kvLookup (dictPop d k) k2 = kvLookup d k2 := by
  induction d with
  | nil => rfl
  | cons p rest ih =>
      obtain ⟨k0, v0⟩ := p
      by_cases h0 : (k0 == k) = true
      · have hk : k0 = k := by simpa using h0
        subst hk
        have : (k0 == k2) = false := by
          simp only [beq_eq_false_iff_ne, ne_eq] at h ⊢
          exact fun hx => h hx.symm
        simp [dictPop, kvLookup, this]
      · simp only [Bool.not_eq_true] at h0
        simp only [dictPop, h0, Bool.false_eq_true, if_false, kvLookup, ih]

/-- C1: configuration resolution merges sources strictly in priority order
(defaults, then the `PYRK_CONFIG_FILE` file, then individual environment
variables, then the explicitly named file, then explicit arguments); for
every key the resolved value comes from the highest-priority source that
defines it, and a source that does not define a key never overwrites a
lower-priority value.  The `Option.orElse` chain on the right is exactly
that priority rule. -/
theorem config_merge_priority
    (envFile envVars file args : ConfigKey → Option JVal) (file_name : Option String)
    (hfn : truthyOptStr file_name = true) (k : ConfigKey) :
    mergedConfig envFile envVars file args true file_name k
      = (Option.orElse (args k) (fun _ => Option.orElse (file k) (fun _ =>
          Option.orElse (envVars k) (fun _ => envFile k)))).getD (defaultConfig k) := by
  unfold mergedConfig applySource
  simp only [if_true, hfn]
  cases args k <;> cases file k <;> cases envVars k <;> cases envFile k <;> rfl

/-- Witness for C1, instantiating the spec's example: default
`timeout = 15`, the environment variable source sets `20`, the explicit
argument sets `25`; the resolved timeout is `25`. -/
theorem config_merge_priority_witness :
    truthyOptStr (some "pyrkbun.json") = true
    ∧ mergedConfig wEnvFileSrc wEnvVarSrc wFileSrc wArgSrc true (some "pyrkbun.json")
        ConfigKey.timeout = JVal.int 25 :=
  ⟨rfl, (config_merge_priority wEnvFileSrc wEnvVarSrc wFileSrc wArgSrc
      (some "pyrkbun.json") rfl ConfigKey.timeout).trans rfl⟩

/-- C2 (amended): construction through `PyrkbunClient.build` fails with a
configuration error if and only if, after merging all sources, the API key
or the API secret key is falsy (unset or empty); direct construction
through `__init__` never validates the credentials. -/
theorem build_credential_validation
    (envFile envVars file args : ConfigKey → Option JVal)
    (read_env : Bool) (file_name : Option String) :
    (buildE envFile envVars file args read_env file_name).isOk
      = !(jfalsy (mergedConfig envFile envVars file args read_env file_name .api_key)
          || jfalsy (mergedConfig envFile envVars file args read_env file_name .api_secret_key)) := by
  unfold buildE
  by_cases h : (jfalsy (mergedConfig envFile envVars file args read_env file_name .api_key)
      || jfalsy (mergedConfig envFile envVars file args read_env file_name .api_secret_key)) = true
  · simp [h, Except.isOk, Except.toBool]
  · simp only [Bool.not_eq_true] at h
    simp [h, Except.isOk, Except.toBool]

/-- Counterexample for C2 as stated: the claim asserts that every way of
constructing a client fails when a credential is empty, but `__init__`
performs no validation — constructing directly with both credentials empty
succeeds and yields a client holding the empty credentials. -/
theorem init_empty_credentials_counterexample :
    (clientInit (.str "") (.str "") (.bool false) (.num 0) (.int 0) (.int 15)
        (.bool false)).api_key = JVal.str ""
    ∧ (clientInit (.str "") (.str "") (.bool false) (.num 0) (.int 0) (.int 15)
        (.bool false)).api_secret_key = JVal.str "" :=
  ⟨rfl, rfl⟩

/-- C3 (amended): classification of a completed `api_post` call.  A body
that fails JSON decoding raises `ApiFailure` with the HTTP status and raw
body; a decoded body with an accepted status (the set is exactly {200})
is returned as success; a decoded body with a non-accepted status raises
`ApiError` carrying the HTTP status and the upstream `status` and
`message` fields provided the body consists of exactly those fields —
a body missing `message` (or carrying extra keys) instead makes the
`ApiError(**result)` expansion raise `TypeError`. -/
theorem api_post_error_classification :
    (∀ c p auth resp, resp.jsonResult = none →
        (apiPost c p auth resp).1 = .error (.apiFailure resp.status_code resp.content))
    ∧ (∀ c p auth resp m, resp.jsonResult = some m →
        VALID_HTTP_RESPONSE.contains resp.status_code = true →
        (apiPost c p auth resp).1 = .ok m)
    ∧ (∀ c p auth resp m st msg, resp.jsonResult = some m →
        VALID_HTTP_RESPONSE.contains resp.status_code = false →
        kvLookup m "status" = some st → kvLookup m "message" = some msg →
        ((dictKeys m).all fun k => k == "http_status" || k == "status" || k == "message") = true →
        (apiPost c p auth resp).1 = .error (.apiError resp.status_code st msg))
    ∧ (∀ c p auth resp m, resp.jsonResult = some m →
        VALID_HTTP_RESPONSE.contains resp.status_code = false →
        kvLookup m "message" = none →
        (apiPost c p auth resp).1 = .error .typeError) := by
  refine ⟨?_, ?_, ?_, ?_⟩
  · intro c p auth resp hjson
    unfold apiPost
    rw [hjson]
  · intro c p auth resp m hjson hcode
    unfold apiPost
    rw [hjson]
    have hmem : resp.status_code ∈ VALID_HTTP_RESPONSE := by simpa using hcode
    simp [hmem]
  · intro c p auth resp m st msg hjson hcode hst hmsg hkeys
    unfold apiPost
    rw [hjson]
    simp only [hcode, Bool.false_eq_true, if_false]
    have hmk : mkApiError (dictUpdate m "http_status" (.int resp.status_code))
        = some (resp.status_code, st, msg) := by
      unfold mkApiError
      rw [kvLookup_dictUpdate_self,
        kvLookup_dictUpdate_ne m "http_status" "status" _ (by decide),
        kvLookup_dictUpdate_ne m "http_status" "message" _ (by decide), hst, hmsg]
      have hall := dictKeys_dictUpdate_all
        (fun k => k == "http_status" || k == "status" || k == "message")
        m "http_status" (.int resp.status_code) hkeys (by decide)
      simp [hall]
    rw [hmk]
  · intro c p auth resp m hjson hcode hmsg
    unfold apiPost
    rw [hjson]
    simp only [hcode, Bool.false_eq_true, if_false]
    have hmsg2 : kvLookup (dictUpdate m "http_status" (.int resp.status_code)) "message"
        = none := by
      rw [kvLookup_dictUpdate_ne m "http_status" "message" _ (by decide), hmsg]
    have hmk : mkApiError (dictUpdate m "http_status" (.int resp.status_code)) = none := by
      unfold mkApiError
      rw [kvLookup_dictUpdate_self, hmsg2]
      rcases kvLookup (dictUpdate m "http_status" (.int resp.status_code)) "status" with
        _ | st <;> rfl
    rw [hmk]

/-- Witness for C3 at the claim's examples: a 500 response whose body is
`{"status": "ERROR", "message": "Invalid record ID."}` raises `ApiError`
with HTTP status 500 and that message; a 200 response with a non-JSON body
raises `ApiFailure` with status 200; a 200 response with a decoded body is
returned as success. -/
theorem api_post_error_classification_witness :
    (apiPost cW none true respNonJson).1
      = .error (.apiFailure 200 "<html>502 Bad Gateway</html>")
    ∧ (apiPost cW none true respOk200).1 = .ok [("status", .str "SUCCESS")]
    ∧ (apiPost cW (some []) true respErr500).1
      = .error (.apiError 500 (.str "ERROR") (.str "Invalid record ID.")) :=
  ⟨api_post_error_classification.1 cW none true respNonJson rfl,
   api_post_error_classification.2.1 cW none true respOk200 _ rfl rfl,
   api_post_error_classification.2.2.1 cW (some []) true respErr500
     [("status", .str "ERROR"), ("message", .str "Invalid record ID.")]
     (.str "ERROR") (.str "Invalid record ID.") rfl rfl rfl rfl rfl⟩

/-- Counterexample for C3 as stated: a 500 response whose valid JSON body
lacks the `message` field makes `ApiError(**result)` raise `TypeError`,
not the `ApiError` the claim promises for every decoded non-200
response. -/
theorem api_post_error_classification_counterexample :
    (apiPost cW none true respErrNoMsg).1 = .error .typeError
    ∧ (Except.error PyErr.typeError : Except PyErr Dict)
      ≠ .error (.apiError 500 (.str "ERROR") (.str "Invalid record ID.")) := by
  refine ⟨rfl, ?_⟩
  intro h
  injection h with h2
  exact absurd h2 (by simp)

/-- C4 (amended): whenever the response body decodes as JSON — i.e. the
call returns successfully or raises `ApiError` — the injected `apikey` and
`secretapikey` entries are popped back out of the caller's payload
dictionary; when decoding fails (`ApiFailure`) the pops on lines 318-319
are never reached and the credentials remain.  Key uniqueness of the
caller's dictionary is assumed, as for every real Python dict. -/
theorem api_post_credential_scrub
    (c : PyrkbunClient) (payloadIn : Option Dict) (auth : Bool) (resp : HttpResponse)
    (m : Dict) (hjson : resp.jsonResult = some m)
    (hnd : (dictKeys (payloadIn.getD [])).Nodup) :
    kvLookup (apiPost c payloadIn auth resp).2 "apikey" = none
    ∧ kvLookup (apiPost c payloadIn auth resp).2 "secretapikey" = none := by
  have hnd1 : (dictKeys (if auth
      then dictUpdate (dictUpdate (payloadIn.getD []) "secretapikey" c.api_secret_key)
        "apikey" c.api_key
      else payloadIn.getD [])).Nodup := by
    by_cases ha : auth = true
    · simp only [ha, if_true]
      exact nodup_dictKeys_dictUpdate _ _ _ (nodup_dictKeys_dictUpdate _ _ _ hnd)
    · simp only [Bool.not_eq_true] at ha
      simp only [ha, Bool.false_eq_true, if_false]
      exact hnd
  have h2 : (apiPost c payloadIn auth resp).2
      = dictPop (dictPop (if auth
          then dictUpdate (dictUpdate (payloadIn.getD []) "secretapikey" c.api_secret_key)
            "apikey" c.api_key
          else payloadIn.getD []) "apikey") "secretapikey" := by
    unfold apiPost
    rw [hjson]
    dsimp only
    split
    · rfl
    · split <;> rfl
  rw [h2]
  constructor
  · rw [kvLookup_dictPop_ne _ _ _ (by decide)]
    exact kvLookup_dictPop_self _ _ hnd1
  · exact kvLookup_dictPop_self _ _ (nodup_dictKeys_dictPop _ _ hnd1)

/-- Witness for C4 (amended) at a successful authenticated call with a
caller payload `{"host": "h"}`: afterwards the payload holds neither
`apikey` nor `secretapikey`. -/
theorem api_post_credential_scrub_witness :
    kvLookup (apiPost cW (some [("host", JVal.str "h")]) true respOk200).2 "apikey" = none
    ∧ kvLookup (apiPost cW (some [("host", JVal.str "h")]) true respOk200).2
        "secretapikey" = none :=
  api_post_credential_scrub cW (some [("host", JVal.str "h")]) true respOk200
    [("status", .str "SUCCESS")] rfl (by decide)

/-- Counterexample for C4 as stated: when the call raises `ApiFailure`
(non-JSON body) the caller's payload still contains both injected
credential keys, contradicting the claim's "regardless of call success or
failure". -/
theorem api_post_credential_scrub_counterexample :
    (apiPost cW (some [("host", JVal.str "h")]) true respNonJson).1
      = .error (.apiFailure 200 "<html>502 Bad Gateway</html>")
    ∧ kvLookup (apiPost cW (some [("host", JVal.str "h")]) true respNonJson).2 "apikey"
      = some (JVal.str "KEY")
    ∧ kvLookup (apiPost cW (some [("host", JVal.str "h")]) true respNonJson).2 "secretapikey"
      = some (JVal.str "SECRET") :=
  ⟨rfl, rfl, rfl⟩

/-- Helper: the branch structure of `Dns._normalize_name` after the
trailing-dot strip agrees with the spec's rule order (the two orders can
only disagree if a name both equalled the zone and ended in `.zone`,
which is impossible by length). -/
theorem normalizeTailEq (s zone : List Char) :
    (if pyEndsWith s ('.' :: zone) then s.take (s.length - ('.' :: zone).length)
     else if s == zone then [] else s)
    = (if s == zone || s.isEmpty then []
       else if pyEndsWith s ('.' :: zone) then s.take (s.length - (zone.length + 1))
       else s) := by
  by_cases hz : (s == zone) = true
  · have hzeq : s = zone := by simpa using hz
    subst hzeq
    have hsfx : pyEndsWith s ('.' :: s) = false :=
      pyEndsWith_false_of_lt _ _ (by simp)
    simp [hsfx]
  · simp only [Bool.not_eq_true] at hz
    by_cases he : s.isEmpty = true
    · have heq : s = [] := by simpa using he
      subst heq
      have hsfx : pyEndsWith [] ('.' :: zone) = false :=
        pyEndsWith_false_of_lt _ _ (by simp)
      simp [hsfx, hz]
    · simp only [Bool.not_eq_true] at he
      simp [hz, he, List.length_cons]

/-- C6: the record name normalizer satisfies the spec's rules applied in
order (strip one trailing dot; empty or zone-equal becomes the empty
string; a `.zone` suffix is stripped; anything else passes through
unchanged), and the claim's three concrete cases hold. -/
theorem normalize_name_matches_spec :
    (∀ name zone : List Char, normalizeName name zone = normalizeNameSpec name zone)
    ∧ normalizeName "www.example.com.".toList "example.com".toList = "www".toList
    ∧ normalizeName "example.com".toList "example.com".toList = []
    ∧ normalizeName "www".toList "example.com".toList = "www".toList := by
  refine ⟨?_, by decide, by decide, by decide⟩
  intro name zone
  unfold normalizeName normalizeNameSpec
  by_cases hn : name.isEmpty = true
  · have he : name = [] := by simpa using hn
    subst he
    have hsfx : pyEndsWith [] ['.'] = false :=
      pyEndsWith_false_of_lt _ _ (by simp)
    simp [hsfx]
  · simp only [Bool.not_eq_true] at hn
    simp only [hn, Bool.false_eq_true, if_false]
    exact normalizeTailEq _ _

/-- C7 (amended): name normalization is idempotent on every input whose
normalized form does not itself end with a dot, does not end with
`'.' + zone`, and is not equal to the zone — i.e. whenever the first
normalization's output triggers none of the rewrite rules.  (In general a
second normalization can strip further; see the counterexample.) -/
theorem normalize_name_conditional_idempotent (x zone : List Char)
    (h1 : pyEndsWith (normalizeName x zone) ['.'] = false)
    (h2 : pyEndsWith (normalizeName x zone) ('.' :: zone) = false)
    (h3 : (normalizeName x zone == zone) = false) :
    normalizeName (normalizeName x zone) zone = normalizeName x zone := by
  generalize hr : normalizeName x zone = r at h1 h2 h3 ⊢
  unfold normalizeName
  by_cases hn : r.isEmpty = true
  · have he : r = [] := by simpa using hn
    subst he
    simp
  · simp only [Bool.not_eq_true] at hn
    simp [hn, h1, h2, h3]

/-- Witness for C7 (amended): normalizing `"www.example.com."` against
`"example.com"` gives `"www"`, which is a fixpoint of normalization. -/
theorem normalize_name_conditional_idempotent_witness :
    normalizeName (normalizeName "www.example.com.".toList "example.com".toList)
        "example.com".toList
      = normalizeName "www.example.com.".toList "example.com".toList :=
  normalize_name_conditional_idempotent _ _ (by decide) (by decide) (by decide)

/-- Counterexample for C7 as stated: normalizing
`"example.com.example.com"` against `"example.com"` yields
`"example.com"`, and normalizing again yields `""`, so
`normalize(normalize(x, zone), zone) ≠ normalize(x, zone)` at this
input. -/
theorem normalize_name_idempotence_counterexample :
    normalizeName (normalizeName "example.com.example.com".toList "example.com".toList)
        "example.com".toList
      ≠ normalizeName "example.com.example.com".toList "example.com".toList := by
  decide

/-- C8 (code evaluated at the failing input): calling `get_records` with a
name but no type does not fall back to the all-records mode the claim
describes; the `elif name:` branch fires and interpolates the Python
`None` literally into the retrieveByNameType path. -/
theorem get_records_name_without_type_path :
    getRecordsPath "example.com" none (some "www") none
      = "/dns/retrieveByNameType/example.com/None/www"
    ∧ getRecordsPath "example.com" none (some "www") none
      ≠ "/dns/retrieve/example.com" := by
  exact ⟨rfl, by decide⟩

/-- Counterexample for C5 as stated: retrieving the raw record
`{"id": 42, "name": "www", "type": "A", "content": "1.2.3.4",
"prio": null}` (notes absent) produces `id = "42"` and `notes = ""`, but
`prio` stays null — it is not coerced to the string `"0"` as the claim
requires. -/
theorem get_records_normalization_counterexample :
    (getRecords cW netRecords "example.com" none none none).1 = .ok ⟨[rec42]⟩
    ∧ rec42.prio = JVal.null
    ∧ JVal.null ≠ JVal.str "0" :=
  ⟨rfl, rfl, fun h => nomatch h⟩

/-- Helper: the notes fix does not disturb other keys. -/
theorem kvLookup_notesFix_ne (d : Dict) (k : String) (hk : (k == "notes") = false) :
    kvLookup (notesFix d) k = kvLookup d k := by
  unfold notesFix
  by_cases hno : (kvLookup d "notes").isNone = true
  · simp only [hno, if_true]
    exact kvLookup_dictUpdate_ne d "notes" k _ hk
  · simp only [Bool.not_eq_true] at hno
    simp [hno]

/-- Helper: after the notes fix, `notes` is present, with the original
value or the empty string. -/
theorem kvLookup_notesFix_notes (d : Dict) :
    kvLookup (notesFix d) "notes" = some ((kvLookup d "notes").getD (JVal.str "")) := by
  unfold notesFix
  rcases hv : kvLookup d "notes" with _ | v
  · simp [hv, kvLookup_dictUpdate_self]
  · simp [hv]

/-- C5 (amended): the record normalization applied by `get_records` maps
each raw record to a `DnsRecord` whose id is the stringified raw id,
whose name is the raw name normalized against the zone, whose type and
content are kept, whose ttl and prio pass through unchanged — a null
`prio` stays null, it is NOT coerced to the string "0" — and whose notes
is the raw value when the key is present (a null value included) and the
empty string only when the key was absent; and every element of a bulk
retrieval list is mapped through exactly this conversion. -/
theorem get_records_normalization :
    (∀ (domain : String) (d : Dict) (r : DnsRecord), convertRecord domain d = some r →
      (∃ idv, kvLookup d "id" = some idv ∧ r.id = jvalStr idv)
      ∧ (∃ nm, kvLookup d "name" = some (JVal.str nm)
          ∧ r.name = String.mk (normalizeName nm.toList domain.toList))
      ∧ (∃ ty, kvLookup d "type" = some ty ∧ r.type = ty)
      ∧ (∃ ct, kvLookup d "content" = some ct ∧ r.content = ct)
      ∧ r.ttl = dictGet d "ttl"
      ∧ r.prio = dictGet d "prio"
      ∧ r.notes = (kvLookup d "notes").getD (JVal.str ""))
    ∧ (∀ (c : PyrkbunClient) (net : String → HttpResponse) (domain : String)
        (rt nm id : Option String) (recs : List DnsRecord) (tr : List String),
        getRecords c net domain rt nm id = (.ok ⟨recs⟩, tr) →
        ∃ rs, convertElems domain rs = some recs) := by
  constructor
  · intro domain d r h
    unfold convertRecord at h
    dsimp only at h
    rcases hid : kvLookup (notesFix d) "id" with _ | idv <;> rw [hid] at h
    · simp at h
    rcases hnm : kvLookup (notesFix d) "name" with _ | nmv <;> rw [hnm] at h
    · simp at h
    rcases nmv with _ | b | n | q | s | xs | flds
    case null => simp at h
    case bool => simp at h
    case int => simp at h
    case num => simp at h
    case arr => simp at h
    case obj => simp at h
    rcases hty : kvLookup (notesFix d) "type" with _ | ty <;> rw [hty] at h
    · simp at h
    rcases hct : kvLookup (notesFix d) "content" with _ | ct <;> rw [hct] at h
    · simp at h
    simp only [Option.some.injEq] at h
    subst h
    refine ⟨⟨idv, ?_, rfl⟩, ⟨s, ?_, rfl⟩, ⟨ty, ?_, rfl⟩, ⟨ct, ?_, rfl⟩, ?_, ?_, ?_⟩
    · rw [← kvLookup_notesFix_ne d "id" (by decide)]
      exact hid
    · rw [← kvLookup_notesFix_ne d "name" (by decide)]
      exact hnm
    · rw [← kvLookup_notesFix_ne d "type" (by decide)]
      exact hty
    · rw [← kvLookup_notesFix_ne d "content" (by decide)]
      exact hct
    · show dictGet (notesFix d) "ttl" = dictGet d "ttl"
      unfold dictGet
      rw [kvLookup_notesFix_ne d "ttl" (by decide)]
    · show dictGet (notesFix d) "prio" = dictGet d "prio"
      unfold dictGet
      rw [kvLookup_notesFix_ne d "prio" (by decide)]
    · show dictGet (notesFix d) "notes" = (kvLookup d "notes").getD (JVal.str "")
      unfold dictGet
      rw [kvLookup_notesFix_notes]
      rfl
  · intro c net domain rt nm id recs tr h
    unfold getRecords at h
    split at h
    · exact absurd h (by simp)
    · dsimp only at h
      split at h
      · exact absurd h (by simp)
      · split at h
        · exact absurd h (by simp)
        · split at h
          · split at h
            · rename_i xa rsv hrecs xb recs2 hconv
              simp only [Prod.mk.injEq, Except.ok.injEq, DnsResponse.mk.injEq] at h
              exact ⟨rsv, by rw [hconv, h.1]⟩
            · exact absurd h (by simp)
          · exact absurd h (by simp)
          · exact absurd h (by simp)

/-- Witness for C5 (amended), at the raw record
`{"id": 42, "name": "www", "type": "A", "content": "1.2.3.4",
"prio": null}` with the notes key absent: the conversion keeps the null
prio, fills notes with the empty string, and a bulk retrieval of that
record is the image of the converter. -/
theorem get_records_normalization_witness :
    (rec42.prio = dictGet raw42 "prio"
      ∧ rec42.notes = (kvLookup raw42 "notes").getD (JVal.str ""))
    ∧ (∃ rs, convertElems "example.com" rs = some [rec42]) :=
  ⟨⟨((get_records_normalization.1 "example.com" raw42 rec42 rfl).2.2.2.2.2).1,
    ((get_records_normalization.1 "example.com" raw42 rec42 rfl).2.2.2.2.2).2⟩,
   get_records_normalization.2 cW netRecords "example.com" none none none [rec42]
     ["/dns/retrieve/example.com"] rfl⟩

/-- C9: every validation error is raised before any network call — an
unsupported record type in get/create, a missing addressing mode in
delete/edit (neither a truthy id nor both a truthy type and name), and an
edit with no fields to change all yield a ValueError together with an
empty list of posted paths. -/
theorem validation_before_network :
    (∀ (c : PyrkbunClient) (net : String → HttpResponse) (domain : String)
        (rt nm id : Option String), truthyOptStr rt = true →
        SUPPORTED_DNS_RECORD_TYPES.contains (pyStrOpt rt) = false →
        ∃ msg, getRecords c net domain rt nm id = (.error (.valueError msg), []))
    ∧ (∀ (c : PyrkbunClient) (net : String → HttpResponse) (domain rt ct : String)
        (nm ttl prio notes : Option String),
        SUPPORTED_DNS_RECORD_TYPES.contains rt = false →
        ∃ msg, createRecord c net domain rt ct nm ttl prio notes
          = (.error (.valueError msg), []))
    ∧ (∀ (c : PyrkbunClient) (net : String → HttpResponse) (domain : String)
        (rt nm id : Option String), truthyOptStr id = false →
        (truthyOptStr rt = false ∨ truthyOptStr nm = false) →
        ∃ msg, deleteRecord c net domain rt nm id = (.error (.valueError msg), []))
    ∧ (∀ (c : PyrkbunClient) (net : String → HttpResponse) (domain : String)
        (id rt nm ct ttl prio notes : Option String), truthyOptStr id = false →
        (truthyOptStr rt = false ∨ truthyOptStr nm = false) →
        ∃ msg, editRecord c net domain id rt nm ct ttl prio notes
          = (.error (.valueError msg), []))
    ∧ (∀ (c : PyrkbunClient) (net : String → HttpResponse) (domain : String)
        (id : Option String),
        ∃ msg, editRecord c net domain id none none none none none none
          = (.error (.valueError msg), [])) := by
  refine ⟨?_, ?_, ?_, ?_, ?_⟩
  · intro c net domain rt nm id hrt hsupp
    refine ⟨"Unsupported DNS record type: " ++ pyStrOpt rt, ?_⟩
    unfold getRecords
    rw [if_pos (by rw [hrt, hsupp]; rfl)]
  · intro c net domain rt ct nm ttl prio notes hsupp
    refine ⟨"Unsupported DNS record type: " ++ rt, ?_⟩
    unfold createRecord
    rw [if_pos (by rw [hsupp]; rfl)]
  · intro c net domain rt nm id hid haddr
    unfold deleteRecord
    by_cases hrt : (truthyOptStr rt
        && !(SUPPORTED_DNS_RECORD_TYPES.contains (pyStrOpt rt))) = true
    · exact ⟨"Unsupported DNS record type: " ++ pyStrOpt rt, by rw [if_pos hrt]⟩
    · have hc : (!truthyOptStr id && (!truthyOptStr rt || !truthyOptStr nm)) = true := by
        rcases haddr with h | h <;> simp [hid, h]
      exact ⟨"Must provide either record_id OR both record_type and name",
        by rw [if_neg hrt, if_pos hc]⟩
  · intro c net domain id rt nm ct ttl prio notes hid haddr
    unfold editRecord
    by_cases hrt : (truthyOptStr rt
        && !(SUPPORTED_DNS_RECORD_TYPES.contains (pyStrOpt rt))) = true
    · exact ⟨"Unsupported DNS record type: " ++ pyStrOpt rt, by rw [if_pos hrt]⟩
    · have hc : (!truthyOptStr id && (!truthyOptStr rt || !truthyOptStr nm)) = true := by
        rcases haddr with h | h <;> simp [hid, h]
      exact ⟨"Must provide either record_id OR both record_type and name",
        by rw [if_neg hrt, if_pos hc]⟩
  · intro c net domain id
    unfold editRecord
    by_cases hid : truthyOptStr id = true
    · refine ⟨"Must provide at least one field to update", ?_⟩
      rw [if_neg (by simp [truthyOptStr]), if_neg (by simp [hid])]
      dsimp only
      rw [if_pos (by rfl)]
    · simp only [Bool.not_eq_true] at hid
      refine ⟨"Must provide either record_id OR both record_type and name", ?_⟩
      rw [if_neg (by simp [truthyOptStr]), if_pos (by rw [hid]; decide)]

/-- Witness for C9: concrete local-validation failures — the claim's
`delete_record(domain)` call with no addressing mode included — each
returning a ValueError with zero posted paths. -/
theorem validation_before_network_witness :
    (∃ msg, getRecords cW netCreate "example.com" (some "FOO") none none
        = (.error (.valueError msg), []))
    ∧ (∃ msg, createRecord cW netCreate "example.com" "FOO" "198.51.100.45"
        none none none none = (.error (.valueError msg), []))
    ∧ (∃ msg, deleteRecord cW netCreate "example.com" none none none
        = (.error (.valueError msg), []))
    ∧ (∃ msg, editRecord cW netCreate "example.com" none none none
        (some "198.51.100.46") none none none = (.error (.valueError msg), []))
    ∧ (∃ msg, editRecord cW netCreate "example.com" (some "12345") none none
        none none none none = (.error (.valueError msg), [])) :=
  ⟨validation_before_network.1 cW netCreate "example.com" (some "FOO") none none
      rfl (by decide),
   validation_before_network.2.1 cW netCreate "example.com" "FOO" "198.51.100.45"
      none none none none (by decide),
   validation_before_network.2.2.1 cW netCreate "example.com" none none none
      rfl (Or.inl rfl),
   validation_before_network.2.2.2.1 cW netCreate "example.com" none none none
      (some "198.51.100.46") none none none rfl (Or.inl rfl),
   validation_before_network.2.2.2.2 cW netCreate "example.com" (some "12345")⟩

/-- C10: a successful `create_record` call posts exactly once to the
create path and returns a record that echoes the caller's inputs without
normalization — the name is the raw caller name (`name or ''`, so the
empty string when omitted, with no zone-suffix stripping), the id is the
stringified server-assigned identifier from the response, and ttl, prio
and notes are exactly the caller's values, `None` when omitted. -/
theorem create_record_echoes_inputs
    (c : PyrkbunClient) (net : String → HttpResponse) (domain rt ct : String)
    (nm ttl prio notes : Option String) (m : Dict) (idv : JVal)
    (hsupp : SUPPORTED_DNS_RECORD_TYPES.contains rt = true)
    (hpost : (apiPost c (some (createPayload rt ct nm ttl prio notes)) true
        (net ("/dns/create/" ++ domain))).1 = .ok m)
    (hstat : jvalEqStr (dictGet m "status") "SUCCESS" = true)
    (hid : kvLookup m "id" = some idv) :
    createRecord c net domain rt ct nm ttl prio notes
      = (.ok { id := jvalStr idv, name := pyOrEmptyStr nm, type := JVal.str rt,
               content := JVal.str ct, ttl := jOfOptStr ttl, prio := jOfOptStr prio,
               notes := jOfOptStr notes }, ["/dns/create/" ++ domain]) := by
  unfold createRecord
  rw [if_neg (by rw [hsupp]; simp)]
  dsimp only
  rw [hpost]
  split
  · rename_i e heq
    exact absurd heq (by simp)
  · rename_i result heq
    injection heq with h2
    subst h2
    rw [if_neg (by simp [hstat]), hid]

/-- Witness for C10: creating an A record with the raw name
`"www.example.com"` against the domain `example.com` echoes that name
without stripping the zone suffix, stringifies the server id 106926659,
and leaves ttl, prio and notes as `None`. -/
theorem create_record_echoes_inputs_witness :
    createRecord cW netCreate "example.com" "A" "198.51.100.45"
        (some "www.example.com") none none none
      = (.ok { id := "106926659", name := "www.example.com", type := JVal.str "A",
               content := JVal.str "198.51.100.45", ttl := JVal.null, prio := JVal.null,
               notes := JVal.null }, ["/dns/create/example.com"]) :=
  create_record_echoes_inputs cW netCreate "example.com" "A" "198.51.100.45"
    (some "www.example.com") none none none
    [("status", .str "SUCCESS"), ("id", .int 106926659)] (.int 106926659)
    (by decide) rfl rfl rfl
